import Mathlib

/-!
Shallow embedding of the measurement reconciliation engine of
`jarvis-tesla-exporter` (src/model.rs, src/tesla_api_client.rs).

Modelling choices:
* All Rust `f64` values are modelled as `ℚ` (the claims are about branch
  structure and exact multiplicative constants, not float rounding).
* Network I/O is modelled by passing the outcome of each network call as an
  explicit argument (`Except String _` for fallible calls); the list of calls
  the engine performs is returned alongside the result so that "no call is
  attempted" is provable.
* The streaming WebSocket read loop of `get_streaming_data` is modelled as a
  recursion over the finite list of incoming frames, each paired with the
  whole-second elapsed time observed at the top of that loop iteration
  (`start.elapsed().as_secs()` in the source).
* `Measurement.id` (a fresh UUID) and `measured_at_time` (wall clock) are
  nondeterministic environment values not mentioned by any claim and are
  omitted from the `Measurement` record; `source` is the constant
  "jarvis-tesla-exporter" and is kept implicit for the same reason.
* The per-field `str::parse::<f64>().unwrap_or(0.0)` of the streaming decoder
  is modelled by carrying each comma-separated field as `Option ℚ` (its parse
  result: `none` when the text does not parse) and applying `Option.getD 0`.
* The geoutils crate's `Location::is_in_circle` (an external library, not part
  of this repository) computes a distance and compares it strictly to the
  radius, returning an error when the iteration does not converge; it is
  modelled by an abstract distance oracle `ℚ × ℚ → ℚ × ℚ → Option ℚ`, with
  `none` mapped to `false` exactly as the source's `.unwrap_or(false)`.
-/

/-- model.rs `GeofenceConfig`: a named circular region. -/
structure GeofenceConfig where
  location : String
  latitude : ℚ
  longitude : ℚ
  geofence_radius_meters : ℚ
  deriving DecidableEq, Repr

/-- model.rs `TeslaVehicleState`: known states plus a raw fallback. -/
inductive TeslaVehicleState where
  | Offline
  | Online
  | Asleep
  | Updating
  | Other (raw : String)
  deriving DecidableEq, Repr

/-- model.rs `TeslaVehicle` (the per-cycle immutable snapshot). -/
structure TeslaVehicle where
  id : ℕ
  vehicle_id : ℕ
  vin : String
  display_name : Option String
  state : TeslaVehicleState
  in_service : Bool
  deriving DecidableEq, Repr

/-- model.rs `TeslaVehicleStreamingData`: one decoded streaming update. -/
structure TeslaVehicleStreamingData where
  latitude : ℚ
  longitude : ℚ
  power : ℚ
  speed : ℚ
  odometer : ℚ
  deriving DecidableEq, Repr

/-- model.rs `TeslaVehicleChargeState`. -/
structure TeslaVehicleChargeState where
  charge_energy_added : ℚ
  charger_power : ℚ
  charge_port_latch : String
  deriving DecidableEq, Repr

/-- model.rs `TeslaVehicleData` (REST vehicle-data response body). -/
structure TeslaVehicleData where
  id : ℕ
  vehicle_id : ℕ
  state : TeslaVehicleState
  in_service : Bool
  charge_state : Option TeslaVehicleChargeState
  deriving DecidableEq, Repr

/-- jarvis_lib `EntityType` (only the constructor the exporter uses). -/
inductive EntityType where
  | Device
  deriving DecidableEq, Repr

/-- jarvis_lib `MetricType`. -/
inductive MetricType where
  | Gauge
  | Counter
  deriving DecidableEq, Repr

/-- jarvis_lib `SampleType` (the constructors the exporter uses). -/
inductive SampleType where
  | ElectricityConsumption
  | DistanceTraveled
  | Availability
  deriving DecidableEq, Repr

/-- jarvis_lib `Sample`. -/
structure Sample where
  entity_type : EntityType
  entity_name : String
  sample_type : SampleType
  sample_name : String
  metric_type : MetricType
  value : ℚ
  deriving DecidableEq, Repr

/-- jarvis_lib `Measurement`, restricted to the fields the engine reads and
the claims mention (see module comment for the omitted `id`, `source`,
`measured_at_time`). -/
structure Measurement where
  location : String
  samples : List Sample
  deriving DecidableEq, Repr

/-- model.rs `TeslaVehicleStreamingData::inside_geofence`: geoutils
`is_in_circle` with `.unwrap_or(false)`; the distance oracle returns `none`
when the underlying distance computation fails. -/
def inside_geofence (dist : ℚ × ℚ → ℚ × ℚ → Option ℚ)
    (sd : TeslaVehicleStreamingData) (geofence : GeofenceConfig) : Bool :=
  match dist (sd.latitude, sd.longitude) (geofence.latitude, geofence.longitude) with
  | some d => decide (d < geofence.geofence_radius_meters)
  | none => false

/-- model.rs `TeslaVehicleStreamingData::in_geofence`: scan the configured
regions in list order, returning the first hit. -/
def in_geofence (dist : ℚ × ℚ → ℚ × ℚ → Option ℚ)
    (sd : TeslaVehicleStreamingData) (geofences : List GeofenceConfig) :
    Option GeofenceConfig :=
  geofences.find? (inside_geofence dist sd)

/-- One WebSocket frame as seen by the read loop of `get_streaming_data`,
after the point where `socket.read_message()` returned it.
`badJson` is a binary frame whose bytes fail `serde_json::from_slice` as a
`Value`; `noStringMsgType` parsed but its `msg_type` is not a JSON string;
`unhandled` has a string `msg_type` other than data:update / data:error;
`updateBadStruct` has `msg_type` data:update but fails the second
`serde_json::from_slice` into `TeslaStreamingApiMessage`; `update` carries the
envelope's `tag` and its comma-split `value` fields, each field as its
`f64`-parse result. -/
inductive WsMessage where
  | close
  | nonBinary
  | badJson
  | noStringMsgType
  | unhandled (msgType : String)
  | dataError (errType : String)
  | updateBadStruct
  | update (tag : String) (values : List (Option ℚ))
  deriving DecidableEq, Repr

/-- The positional extraction of `get_streaming_data` once a 13-field
data:update for the right vehicle is found: speed at index 1, odometer at
index 2, latitude at 6, longitude at 7, power at 8 taken absolute; a field
that failed to parse contributes `0.0`. -/
def decodeValues (values : List (Option ℚ)) : TeslaVehicleStreamingData :=
  { latitude := (values.getD 6 none).getD 0
    longitude := (values.getD 7 none).getD 0
    power := |(values.getD 8 none).getD 0|
    speed := (values.getD 1 none).getD 0
    odometer := (values.getD 2 none).getD 0 }

/-- The read loop of `tesla_api_client.rs::get_streaming_data`, over the list
of incoming frames each paired with the elapsed seconds observed at the top of
its iteration. `expectedTag` is `vehicle.vehicle_id.to_string()`. An exhausted
frame list models the blocking `socket.read_message()?` failing when the peer
stops sending. -/
def readLoop (expectedTag : String) :
    List (ℕ × WsMessage) → Except String TeslaVehicleStreamingData
  | [] => Except.error "read failed"
  | (elapsed, msg) :: rest =>
    if elapsed > 30 then Except.error "Timed out after 30 seconds"
    else
      match msg with
      | WsMessage.close => Except.error "Received close message"
      | WsMessage.nonBinary => readLoop expectedTag rest
      | WsMessage.badJson => Except.error "JSON parse error"
      | WsMessage.noStringMsgType => readLoop expectedTag rest
      | WsMessage.unhandled _ => readLoop expectedTag rest
      | WsMessage.dataError errType =>
          Except.error ("Received error message: " ++ errType)
      | WsMessage.updateBadStruct => Except.error "JSON parse error"
      | WsMessage.update tag values =>
          if tag ≠ expectedTag then readLoop expectedTag rest
          else if values.length ≠ 13 then readLoop expectedTag rest
          else Except.ok (decodeValues values)

/-- The two network calls of interest that `get_measurements` may perform for
one vehicle after the snapshot fetch: the retried streaming probe and the REST
vehicle-data fetch. -/
inductive ApiCall where
  | streaming
  | vehicleData
  deriving DecidableEq, Repr

/-- tesla_api_client.rs `DEFAULT_DISPLAY_NAME` applied as in
`vehicle.display_name.map_or(DEFAULT_DISPLAY_NAME.to_string(), |n| n)`. -/
def displayNameOf (vehicle : TeslaVehicle) : String :=
  vehicle.display_name.getD "Unknown"

/-- The carried-forward values `get_last_values` returns (a Rust 4-tuple
`(last_location, last_charger_power, last_charge_energy_added,
last_odometer)`). -/
structure LastValues where
  location : String
  charger_power : ℚ
  charge_energy_added : ℚ
  odometer : ℚ
  deriving DecidableEq, Repr

/-- tesla_api_client.rs `get_last_values`: pick the first prior measurement
holding any sample for this vehicle's display name, then read its
ElectricityConsumption gauge and counter and DistanceTraveled counter by
matching entity type, sample type, sample name and metric type, defaulting
each missing value to 0 and a missing measurement's location to "Other". -/
def get_last_values (last_measurements : Option (List Measurement))
    (vehicle : TeslaVehicle) : LastValues :=
  let display_name := displayNameOf vehicle
  let last_measurement : Option Measurement :=
    match last_measurements with
    | some lms => lms.find? (fun lm => lm.samples.any (fun s => s.sample_name == display_name))
    | none => none
  let last_charger_power : ℚ :=
    match last_measurement with
    | some lm =>
        ((lm.samples.find? (fun s =>
            s.entity_type == EntityType.Device
              && s.sample_type == SampleType.ElectricityConsumption
              && s.sample_name == display_name
              && s.metric_type == MetricType.Gauge)).map Sample.value).getD 0
    | none => 0
  let last_charge_energy_added : ℚ :=
    match last_measurement with
    | some lm =>
        ((lm.samples.find? (fun s =>
            s.entity_type == EntityType.Device
              && s.sample_type == SampleType.ElectricityConsumption
              && s.sample_name == display_name
              && s.metric_type == MetricType.Counter)).map Sample.value).getD 0
    | none => 0
  let last_odometer : ℚ :=
    match last_measurement with
    | some lm =>
        ((lm.samples.find? (fun s =>
            s.entity_type == EntityType.Device
              && s.sample_type == SampleType.DistanceTraveled
              && s.sample_name == display_name
              && s.metric_type == MetricType.Counter)).map Sample.value).getD 0
    | none => 0
  let last_location : String :=
    match last_measurement with
    | some lm => lm.location
    | none => "Other"
  { location := last_location
    charger_power := last_charger_power
    charge_energy_added := last_charge_energy_added
    odometer := last_odometer }

/-- The location chosen in the awake-success branch of `get_measurements`:
the matched geofence's name, or the sentinel `LOCATION_OTHER`. -/
def resolve_location (dist : ℚ × ℚ → ℚ × ℚ → Option ℚ)
    (sd : TeslaVehicleStreamingData) (geofences : List GeofenceConfig) : String :=
  match in_geofence dist sd geofences with
  | some geofence => geofence.location
  | none => "Other"

/-- The measurement `get_measurements` assembles from the reconciled 5-tuple
`(location, charger_power, charge_energy_added, odometer, availability)`:
an ElectricityConsumption gauge, an ElectricityConsumption counter, a
DistanceTraveled counter and an Availability gauge, in push order. -/
def mk_measurement (location : String) (charger_power charge_energy_added
    odometer availability : ℚ) (vehicle : TeslaVehicle) : Measurement :=
  let display_name := displayNameOf vehicle
  { location := location
    samples :=
      [ { entity_type := EntityType.Device
          entity_name := "jarvis-tesla-exporter"
          sample_type := SampleType.ElectricityConsumption
          sample_name := display_name
          metric_type := MetricType.Gauge
          value := charger_power }
      , { entity_type := EntityType.Device
          entity_name := "jarvis-tesla-exporter"
          sample_type := SampleType.ElectricityConsumption
          sample_name := display_name
          metric_type := MetricType.Counter
          value := charge_energy_added }
      , { entity_type := EntityType.Device
          entity_name := "jarvis-tesla-exporter"
          sample_type := SampleType.DistanceTraveled
          sample_name := display_name
          metric_type := MetricType.Counter
          value := odometer }
      , { entity_type := EntityType.Device
          entity_name := "jarvis-tesla-exporter"
          sample_type := SampleType.Availability
          sample_name := display_name
          metric_type := MetricType.Gauge
          value := availability } ] }

/-- The per-vehicle body of `get_measurements`: the big state branch computing
`(location, charger_power, charge_energy_added, odometer, availability)`.
`streamResult` is the outcome of the jitter/backoff-retried
`get_streaming_data` (an error here means all `RETRY_TAKES` attempts failed,
timeouts included); `vehicleDataResult` is the outcome of the retried
`get_vehicle_data`, consulted only when the activity guard fires — its error
propagates through `?`. The second component records which of the two calls
were attempted, in order. -/
def reconcile_values (dist : ℚ × ℚ → ℚ × ℚ → Option ℚ)
    (geofences : List GeofenceConfig) (vehicle : TeslaVehicle)
    (last_measurements : Option (List Measurement))
    (streamResult : Except String TeslaVehicleStreamingData)
    (vehicleDataResult : Except String TeslaVehicleData) :
    Except String (String × ℚ × ℚ × ℚ × ℚ) × List ApiCall :=
  let lv := get_last_values last_measurements vehicle
  if vehicle.in_service
      ∨ vehicle.state = TeslaVehicleState.Asleep
      ∨ vehicle.state = TeslaVehicleState.Offline then
    let availability : ℚ :=
      if vehicle.in_service then -2
      else if vehicle.state = TeslaVehicleState.Offline then -1
      else 0
    (Except.ok (lv.location, 0, lv.charge_energy_added, lv.odometer, availability), [])
  else
    match streamResult with
    | Except.ok sd =>
        let location := resolve_location dist sd geofences
        let current_odometer := sd.odometer * 1609.344
        if sd.power > 0 ∨ sd.speed > 0
            ∨ current_odometer - lv.odometer > 0 ∨ lv.charger_power > 0 then
          match vehicleDataResult with
          | Except.ok vehicle_data =>
              let pair : ℚ × ℚ :=
                match vehicle_data.charge_state with
                | some charge_state =>
                    if charge_state.charge_port_latch = "Engaged" then
                      (charge_state.charge_energy_added * 1000 * 3600,
                        charge_state.charger_power * 1000)
                    else (0, 0)
                | none => (lv.charge_energy_added, 0)
              (Except.ok (location, pair.2, pair.1, current_odometer, 1),
                [ApiCall.streaming, ApiCall.vehicleData])
          | Except.error e =>
              (Except.error e, [ApiCall.streaming, ApiCall.vehicleData])
        else
          (Except.ok (location, 0, lv.charge_energy_added, current_odometer, 1),
            [ApiCall.streaming])
    | Except.error _ =>
        (Except.ok (lv.location, 0, lv.charge_energy_added, lv.odometer, 0),
          [ApiCall.streaming])

/-- One vehicle's turn of `get_measurements`: reconcile the 5-tuple and
assemble the measurement from it (an error from the REST fetch propagates
out of `get_measurements` via `?`, so no measurement is produced then). -/
def process_vehicle (dist : ℚ × ℚ → ℚ × ℚ → Option ℚ)
    (geofences : List GeofenceConfig) (vehicle : TeslaVehicle)
    (last_measurements : Option (List Measurement))
    (streamResult : Except String TeslaVehicleStreamingData)
    (vehicleDataResult : Except String TeslaVehicleData) :
    Except String Measurement × List ApiCall :=
  match reconcile_values dist geofences vehicle last_measurements streamResult vehicleDataResult with
  | (Except.ok (location, charger_power, charge_energy_added, odometer, availability), calls) =>
      (Except.ok (mk_measurement location charger_power charge_energy_added
        odometer availability vehicle), calls)
  | (Except.error e, calls) => (Except.error e, calls)

/-- A concrete 13-field update payload used by closed instances below:
speed 5 (index 1), odometer 100 (index 2), latitude 52 (index 6),
longitude 4 (index 7), raw power -3 (index 8), with one unparsable field. -/
def sampleFields : List (Option ℚ) :=
  [some 0, some 5, some 100, none, some 0, some 0, some 52, some 4, some (-3),
    some 0, some 0, some 0, some 0]

/-- C4: a data:update frame whose tag matches the vehicle's channel key and
whose value splits into exactly 13 fields makes the probe return the
StreamingSample with speed from index 1, odometer from index 2, latitude from
index 6, longitude from index 7, and power from index 8 taken absolute;
unparsable fields contribute 0. -/
theorem c4_streaming_decode (expectedTag : String) (elapsed : ℕ)
    (values : List (Option ℚ)) (rest : List (ℕ × WsMessage))
    (h30 : elapsed ≤ 30) (hlen : values.length = 13) :
    readLoop expectedTag ((elapsed, WsMessage.update expectedTag values) :: rest)
      = Except.ok
        { latitude := (values.getD 6 none).getD 0
          longitude := (values.getD 7 none).getD 0
          power := |(values.getD 8 none).getD 0|
          speed := (values.getD 1 none).getD 0
          odometer := (values.getD 2 none).getD 0 } := by
  have h : ¬ elapsed > 30 := by omega
  simp [readLoop, h, hlen, decodeValues]

/-- Closed instance of `c4_streaming_decode` on `sampleFields`. -/
theorem c4_streaming_decode_witness :
    (0 : ℕ) ≤ 30 ∧ sampleFields.length = 13 ∧
      readLoop "42" [(0, WsMessage.update "42" sampleFields)]
        = Except.ok
            { latitude := 52, longitude := 4, power := 3, speed := 5, odometer := 100 } :=
  ⟨by decide, by decide,
    by
      have h := c4_streaming_decode "42" 0 sampleFields [] (by decide) (by decide)
      simpa [sampleFields] using h⟩

/-- C5, counterexample: a binary frame with a malformed JSON payload is not
skipped — `serde_json::from_slice(&msg_data)?` propagates the error and the
probe call fails, even though a perfectly valid matching update follows. -/
theorem c5_counterexample :
    readLoop "42" [(0, WsMessage.badJson), (1, WsMessage.update "42" sampleFields)]
      = Except.error "JSON parse error" := by
  rfl

/-- C5, amended: a malformed individual update message makes the probe call
fail with a parse error (both when the bytes fail to parse as JSON and when a
data:update envelope fails to parse into the message struct); it is not
skipped. -/
theorem c5_amended_malformed_fails (expectedTag : String) (elapsed : ℕ)
    (rest : List (ℕ × WsMessage)) (h30 : elapsed ≤ 30) :
    readLoop expectedTag ((elapsed, WsMessage.badJson) :: rest)
        = Except.error "JSON parse error"
      ∧ readLoop expectedTag ((elapsed, WsMessage.updateBadStruct) :: rest)
        = Except.error "JSON parse error" := by
  have h : ¬ elapsed > 30 := by omega
  exact ⟨by simp [readLoop, h], by simp [readLoop, h]⟩

/-- Closed instance of `c5_amended_malformed_fails`. -/
theorem c5_amended_malformed_fails_witness :
    (0 : ℕ) ≤ 30 ∧
      readLoop "42" [(0, WsMessage.badJson)] = Except.error "JSON parse error" :=
  ⟨by decide, (c5_amended_malformed_fails "42" 0 [] (by decide)).1⟩

/-- C6: a data:update frame whose value splits into a field count other than
13 is skipped without raising an error and the loop continues on the rest of
the frames; separately, once elapsed time exceeds 30 seconds the loop stops
with the timeout error. -/
theorem c6_field_count_skip (expectedTag tag : String) (elapsed : ℕ)
    (values : List (Option ℚ)) (rest : List (ℕ × WsMessage))
    (hlen : values.length ≠ 13) :
    (elapsed ≤ 30 →
        readLoop expectedTag ((elapsed, WsMessage.update tag values) :: rest)
          = readLoop expectedTag rest)
      ∧ (∀ t : ℕ, ∀ m : WsMessage, t > 30 →
          readLoop expectedTag ((t, m) :: rest)
            = Except.error "Timed out after 30 seconds") := by
  constructor
  · intro h30
    have h : ¬ elapsed > 30 := by omega
    by_cases htag : tag = expectedTag
    · simp [readLoop, h, htag, hlen]
    · simp [readLoop, h, htag]
  · intro t m ht
    simp [readLoop, ht]

/-- Closed instance of `c6_field_count_skip`: a 3-field update is skipped and
the following valid frame is decoded; a late frame times out. -/
theorem c6_field_count_skip_witness :
    ([some (0 : ℚ), some 1, some 2].length ≠ 13) ∧
      readLoop "42"
          [(0, WsMessage.update "42" [some 0, some 1, some 2]),
            (1, WsMessage.update "42" sampleFields)]
        = readLoop "42" [(1, WsMessage.update "42" sampleFields)] ∧
      readLoop "42" [(31, WsMessage.close)]
        = Except.error "Timed out after 30 seconds" :=
  ⟨by decide,
    (c6_field_count_skip "42" "42" 0 [some 0, some 1, some 2]
      [(1, WsMessage.update "42" sampleFields)] (by decide)).1 (by decide),
    (c6_field_count_skip "42" "42" 0 [some 0, some 1, some 2]
      [] (by decide)).2 31 WsMessage.close (by decide)⟩

/-- First-match characterization of the geofence scan, proved by induction on
the region list. -/
lemma in_geofence_eq_some_iff (dist : ℚ × ℚ → ℚ × ℚ → Option ℚ)
    (sd : TeslaVehicleStreamingData) (geofences : List GeofenceConfig)
    (g : GeofenceConfig) :
    in_geofence dist sd geofences = some g ↔
      inside_geofence dist sd g = true ∧
      ∃ i : ℕ, ∃ hi : i < geofences.length,
        geofences.get ⟨i, hi⟩ = g ∧
        ∀ j : ℕ, ∀ hj : j < geofences.length, j < i →
          inside_geofence dist sd (geofences.get ⟨j, hj⟩) = false := by
  induction geofences with
  | nil => simp [in_geofence]
  | cons a as ih =>
    by_cases hpa : inside_geofence dist sd a = true
    · rw [in_geofence, List.find?_cons_of_pos _ hpa]
      constructor
      · intro h
        have hag : a = g := by injection h
        subst hag
        refine ⟨hpa, 0, Nat.succ_pos _, rfl, ?_⟩
        intro j hj hj0
        exact absurd hj0 (Nat.not_lt_zero j)
      · rintro ⟨hg, i, hi, hget, hfirst⟩
        cases i with
        | zero => exact congrArg some hget
        | succ k =>
          have h0 : inside_geofence dist sd a = false :=
            hfirst 0 (Nat.succ_pos _) (Nat.succ_pos k)
          rw [hpa] at h0
          exact Bool.noConfusion h0
    · have hpa' : inside_geofence dist sd a = false := Bool.eq_false_iff.mpr hpa
      rw [in_geofence, List.find?_cons_of_neg _ hpa]
      constructor
      · intro h
        have h' : in_geofence dist sd as = some g := h
        obtain ⟨hg, i, hi, hget, hfirst⟩ := ih.mp h'
        refine ⟨hg, i + 1, Nat.succ_lt_succ hi, hget, ?_⟩
        intro j hj hji
        cases j with
        | zero => exact hpa'
        | succ k =>
          exact hfirst k (Nat.lt_of_succ_lt_succ hj) (Nat.lt_of_succ_lt_succ hji)
      · rintro ⟨hg, i, hi, hget, hfirst⟩
        cases i with
        | zero =>
          exfalso
          have hag : a = g := hget
          rw [← hag, hpa'] at hg
          exact Bool.noConfusion hg
        | succ k =>
          have h' : in_geofence dist sd as = some g := by
            rw [ih]
            refine ⟨hg, k, Nat.lt_of_succ_lt_succ hi, hget, ?_⟩
            intro j hj hjk
            exact hfirst (j + 1) (Nat.succ_lt_succ hj) (Nat.succ_lt_succ hjk)
          exact h'

/-- C7: geofence matching is a pure first-match-wins scan: the matcher
returns the first region in list order whose distance from the point is
strictly below its radius, returns none exactly when no region matches, and a
none match makes the awake branch use the sentinel location "Other". -/
theorem c7_geofence_first_match (dist : ℚ × ℚ → ℚ × ℚ → Option ℚ)
    (sd : TeslaVehicleStreamingData) (geofences : List GeofenceConfig) :
    (∀ g : GeofenceConfig,
        in_geofence dist sd geofences = some g ↔
          inside_geofence dist sd g = true ∧
          ∃ i : ℕ, ∃ hi : i < geofences.length,
            geofences.get ⟨i, hi⟩ = g ∧
            ∀ j : ℕ, ∀ hj : j < geofences.length, j < i →
              inside_geofence dist sd (geofences.get ⟨j, hj⟩) = false)
      ∧ (in_geofence dist sd geofences = none ↔
          ∀ g ∈ geofences, inside_geofence dist sd g = false)
      ∧ (∀ g : GeofenceConfig, in_geofence dist sd geofences = some g →
          resolve_location dist sd geofences = g.location)
      ∧ (in_geofence dist sd geofences = none →
          resolve_location dist sd geofences = "Other") := by
  refine ⟨fun g => in_geofence_eq_some_iff dist sd geofences g, ?_, ?_, ?_⟩
  · rw [in_geofence, List.find?_eq_none]
    constructor
    · intro h g hg
      simpa using h g hg
    · intro h g hg
      simp [h g hg]
  · intro g hsome
    simp [resolve_location, hsome]
  · intro hnone
    simp [resolve_location, hnone]

/-- A distance oracle that always reports 10 meters. -/
def distTen : ℚ × ℚ → ℚ × ℚ → Option ℚ := fun _ _ => some 10

/-- A distance oracle whose computation always fails to converge. -/
def distNone : ℚ × ℚ → ℚ × ℚ → Option ℚ := fun _ _ => none

/-- Concrete 100 m regions for closed instances. -/
def gHome : GeofenceConfig :=
  { location := "Home", latitude := 52, longitude := 4, geofence_radius_meters := 100 }

/-- A second concrete region, also matching under `distTen`. -/
def gWork : GeofenceConfig :=
  { location := "Work", latitude := 51, longitude := 5, geofence_radius_meters := 100 }

/-- A concrete streaming sample at the origin with no activity. -/
def sdIdle : TeslaVehicleStreamingData :=
  { latitude := 0, longitude := 0, power := 0, speed := 0, odometer := 0 }

/-- Closed instance of `c7_geofence_first_match`: with two overlapping
matching regions the first-listed one wins, its name becomes the location,
and with no region configured the location is "Other". -/
theorem c7_geofence_first_match_witness :
    in_geofence distTen sdIdle [gHome, gWork] = some gHome ∧
      resolve_location distTen sdIdle [gHome, gWork] = "Home" ∧
      resolve_location distTen sdIdle [] = "Other" :=
  ⟨by decide,
    (c7_geofence_first_match distTen sdIdle [gHome, gWork]).2.2.1 gHome (by decide),
    (c7_geofence_first_match distTen sdIdle []).2.2.2 (by decide)⟩

/-- C1: a vehicle that is in service, asleep or offline is not probed at all
(no streaming, no REST call); its measurement carries the prior location,
charge-energy-added counter and odometer counter forward unchanged, reports a
power gauge of 0, and an availability of -2 when in service, else -1 when
offline, else 0 (asleep). -/
theorem c1_unavailable_carries_forward (dist : ℚ × ℚ → ℚ × ℚ → Option ℚ)
    (geofences : List GeofenceConfig) (vehicle : TeslaVehicle)
    (last_measurements : Option (List Measurement))
    (streamResult : Except String TeslaVehicleStreamingData)
    (vehicleDataResult : Except String TeslaVehicleData)
    (h : vehicle.in_service
      ∨ vehicle.state = TeslaVehicleState.Asleep
      ∨ vehicle.state = TeslaVehicleState.Offline) :
    process_vehicle dist geofences vehicle last_measurements streamResult vehicleDataResult
      = (Except.ok (mk_measurement
            (get_last_values last_measurements vehicle).location
            0
            (get_last_values last_measurements vehicle).charge_energy_added
            (get_last_values last_measurements vehicle).odometer
            (if vehicle.in_service then -2
              else if vehicle.state = TeslaVehicleState.Offline then -1 else 0)
            vehicle),
          []) := by
  simp only [process_vehicle, reconcile_values, if_pos h]

/-- A concrete asleep vehicle. -/
def vTessieAsleep : TeslaVehicle :=
  { id := 1, vehicle_id := 42, vin := "v", display_name := some "Tessie",
    state := TeslaVehicleState.Asleep, in_service := false }

/-- A concrete online vehicle. -/
def vTessieOnline : TeslaVehicle :=
  { id := 1, vehicle_id := 42, vin := "v", display_name := some "Tessie",
    state := TeslaVehicleState.Online, in_service := false }

/-- Closed instance of `c1_unavailable_carries_forward` on an asleep vehicle
with no prior measurement. -/
theorem c1_unavailable_carries_forward_witness :
    (vTessieAsleep.in_service
      ∨ vTessieAsleep.state = TeslaVehicleState.Asleep
      ∨ vTessieAsleep.state = TeslaVehicleState.Offline)
    ∧ process_vehicle distNone [] vTessieAsleep none
        (Except.error "probe failed") (Except.error "unused")
      = (Except.ok (mk_measurement "Other" 0 0 0
          (if vTessieAsleep.in_service then -2
            else if vTessieAsleep.state = TeslaVehicleState.Offline then -1 else 0)
          vTessieAsleep), []) :=
  ⟨Or.inr (Or.inl rfl),
    c1_unavailable_carries_forward distNone [] vTessieAsleep none
      (Except.error "probe failed") (Except.error "unused")
      (Or.inr (Or.inl rfl))⟩


/-- C3: for an awake vehicle whose retried streaming probe fails (timeouts
included), the engine still produces a measurement: location and both
counters are carried forward unchanged, the power gauge is 0 and availability
is 0, exactly the asleep shape; only the streaming call was attempted. -/
theorem c3_probe_failure_fallback (dist : ℚ × ℚ → ℚ × ℚ → Option ℚ)
    (geofences : List GeofenceConfig) (vehicle : TeslaVehicle)
    (last_measurements : Option (List Measurement)) (e : String)
    (vehicleDataResult : Except String TeslaVehicleData)
    (hs : vehicle.in_service = false)
    (ha : vehicle.state ≠ TeslaVehicleState.Asleep)
    (ho : vehicle.state ≠ TeslaVehicleState.Offline) :
    process_vehicle dist geofences vehicle last_measurements (Except.error e) vehicleDataResult
      = (Except.ok (mk_measurement
            (get_last_values last_measurements vehicle).location
            0
            (get_last_values last_measurements vehicle).charge_energy_added
            (get_last_values last_measurements vehicle).odometer
            0
            vehicle),
          [ApiCall.streaming]) := by
  have h : ¬ (vehicle.in_service
      ∨ vehicle.state = TeslaVehicleState.Asleep
      ∨ vehicle.state = TeslaVehicleState.Offline) := by
    simp [hs, ha, ho]
  simp only [process_vehicle, reconcile_values, if_neg h]

/-- Closed instance of `c3_probe_failure_fallback` on an online vehicle whose
probe timed out. -/
theorem c3_probe_failure_fallback_witness :
    vTessieOnline.in_service = false
    ∧ process_vehicle distNone [] vTessieOnline none
        (Except.error "Timed out after 30 seconds") (Except.error "unused")
      = (Except.ok (mk_measurement "Other" 0 0 0 0 vTessieOnline),
        [ApiCall.streaming]) :=
  ⟨rfl,
    c3_probe_failure_fallback distNone [] vTessieOnline none
      "Timed out after 30 seconds" (Except.error "unused")
      rfl (by decide) (by decide)⟩

/-- C2: for an awake vehicle with a successful probe, the REST vehicle-data
fetch is attempted iff the streamed power is > 0, or the streamed speed is
> 0, or the current odometer (streamed miles x 1609.344) exceeds the prior
odometer counter, or the prior cycle's charger power gauge is > 0; when the
guard is false the prior charge-energy-added counter is retained, the power
gauge is 0 and availability is 1. -/
theorem c2_rest_guard (dist : ℚ × ℚ → ℚ × ℚ → Option ℚ)
    (geofences : List GeofenceConfig) (vehicle : TeslaVehicle)
    (last_measurements : Option (List Measurement))
    (sd : TeslaVehicleStreamingData)
    (vehicleDataResult : Except String TeslaVehicleData)
    (hs : vehicle.in_service = false)
    (ha : vehicle.state ≠ TeslaVehicleState.Asleep)
    (ho : vehicle.state ≠ TeslaVehicleState.Offline) :
    (ApiCall.vehicleData ∈
        (process_vehicle dist geofences vehicle last_measurements
          (Except.ok sd) vehicleDataResult).2
      ↔ (sd.power > 0 ∨ sd.speed > 0
          ∨ sd.odometer * 1609.344 > (get_last_values last_measurements vehicle).odometer
          ∨ (get_last_values last_measurements vehicle).charger_power > 0))
    ∧ (¬ (sd.power > 0 ∨ sd.speed > 0
          ∨ sd.odometer * 1609.344 > (get_last_values last_measurements vehicle).odometer
          ∨ (get_last_values last_measurements vehicle).charger_power > 0) →
        process_vehicle dist geofences vehicle last_measurements
            (Except.ok sd) vehicleDataResult
          = (Except.ok (mk_measurement (resolve_location dist sd geofences) 0
              (get_last_values last_measurements vehicle).charge_energy_added
              (sd.odometer * 1609.344) 1 vehicle),
            [ApiCall.streaming])) := by
  have h : ¬ (vehicle.in_service
      ∨ vehicle.state = TeslaVehicleState.Asleep
      ∨ vehicle.state = TeslaVehicleState.Offline) := by
    simp [hs, ha, ho]
  have hiff : (sd.power > 0 ∨ sd.speed > 0
      ∨ sd.odometer * 1609.344 - (get_last_values last_measurements vehicle).odometer > 0
      ∨ (get_last_values last_measurements vehicle).charger_power > 0)
    ↔ (sd.power > 0 ∨ sd.speed > 0
      ∨ sd.odometer * 1609.344 > (get_last_values last_measurements vehicle).odometer
      ∨ (get_last_values last_measurements vehicle).charger_power > 0) :=
    or_congr Iff.rfl (or_congr Iff.rfl (or_congr sub_pos Iff.rfl))
  constructor
  · by_cases hg : sd.power > 0 ∨ sd.speed > 0
        ∨ sd.odometer * 1609.344 > (get_last_values last_measurements vehicle).odometer
        ∨ (get_last_values last_measurements vehicle).charger_power > 0
    · have hgc := hiff.mpr hg
      cases vehicleDataResult with
      | ok vd => simp [process_vehicle, reconcile_values, if_neg h, if_pos hgc, hg]
      | error e => simp [process_vehicle, reconcile_values, if_neg h, if_pos hgc, hg]
    · have hgc : ¬ (sd.power > 0 ∨ sd.speed > 0
          ∨ sd.odometer * 1609.344 - (get_last_values last_measurements vehicle).odometer > 0
          ∨ (get_last_values last_measurements vehicle).charger_power > 0) :=
        fun hc => hg (hiff.mp hc)
      simp [process_vehicle, reconcile_values, if_neg h, if_neg hgc, hg]
  · intro hg
    have hgc : ¬ (sd.power > 0 ∨ sd.speed > 0
        ∨ sd.odometer * 1609.344 - (get_last_values last_measurements vehicle).odometer > 0
        ∨ (get_last_values last_measurements vehicle).charger_power > 0) :=
      fun hc => hg (hiff.mp hc)
    simp [process_vehicle, reconcile_values, if_neg h, if_neg hgc, hg]

/-- Closed instance of `c2_rest_guard`: an idle sample with no prior
measurement does not trigger the REST fetch. -/
theorem c2_rest_guard_witness :
    vTessieOnline.in_service = false ∧
      (ApiCall.vehicleData ∈
          (process_vehicle distNone [] vTessieOnline none
            (Except.ok sdIdle) (Except.error "unused")).2
        ↔ (sdIdle.power > 0 ∨ sdIdle.speed > 0
            ∨ sdIdle.odometer * 1609.344 > (get_last_values none vTessieOnline).odometer
            ∨ (get_last_values none vTessieOnline).charger_power > 0)) :=
  ⟨rfl,
    (c2_rest_guard distNone [] vTessieOnline none sdIdle (Except.error "unused")
      rfl (by decide) (by decide)).1⟩

/-- C8: the engine's unit conversions are the exact contract constants: in
the branch that consumes fresh REST data with an engaged charge port, the
odometer counter is the streamed miles x 1609.344, the charge-energy-added
counter is the REST kWh x 1000 x 3600, and the charger power gauge is the
REST kW x 1000. -/
theorem c8_unit_conversions (dist : ℚ × ℚ → ℚ × ℚ → Option ℚ)
    (geofences : List GeofenceConfig) (vehicle : TeslaVehicle)
    (last_measurements : Option (List Measurement))
    (sd : TeslaVehicleStreamingData) (vd : TeslaVehicleData)
    (cs : TeslaVehicleChargeState)
    (hs : vehicle.in_service = false)
    (ha : vehicle.state ≠ TeslaVehicleState.Asleep)
    (ho : vehicle.state ≠ TeslaVehicleState.Offline)
    (hguard : sd.power > 0 ∨ sd.speed > 0
      ∨ sd.odometer * 1609.344 - (get_last_values last_measurements vehicle).odometer > 0
      ∨ (get_last_values last_measurements vehicle).charger_power > 0)
    (hcs : vd.charge_state = some cs)
    (hlatch : cs.charge_port_latch = "Engaged") :
    process_vehicle dist geofences vehicle last_measurements (Except.ok sd) (Except.ok vd)
      = (Except.ok (mk_measurement (resolve_location dist sd geofences)
            (cs.charger_power * 1000)
            (cs.charge_energy_added * 1000 * 3600)
            (sd.odometer * 1609.344) 1 vehicle),
          [ApiCall.streaming, ApiCall.vehicleData]) := by
  have h : ¬ (vehicle.in_service
      ∨ vehicle.state = TeslaVehicleState.Asleep
      ∨ vehicle.state = TeslaVehicleState.Offline) := by
    simp [hs, ha, ho]
  have hg : sd.power > 0 ∨ sd.speed > 0
      ∨ sd.odometer * 1609.344 > (get_last_values last_measurements vehicle).odometer
      ∨ (get_last_values last_measurements vehicle).charger_power > 0 :=
    (or_congr Iff.rfl (or_congr Iff.rfl (or_congr sub_pos Iff.rfl))).mp hguard
  simp [process_vehicle, reconcile_values, if_neg h, hg, hcs, hlatch]

/-- A concrete engaged charge state: 10 kWh added at 11 kW. -/
def csEngaged : TeslaVehicleChargeState :=
  { charge_energy_added := 10, charger_power := 11, charge_port_latch := "Engaged" }

/-- A concrete REST body carrying `csEngaged`. -/
def vdEngaged : TeslaVehicleData :=
  { id := 1, vehicle_id := 42, state := TeslaVehicleState.Online,
    in_service := false, charge_state := some csEngaged }

/-- A concrete streaming sample showing 1 W of activity. -/
def sdActive : TeslaVehicleStreamingData :=
  { latitude := 0, longitude := 0, power := 1, speed := 0, odometer := 0 }

/-- Closed instance of `c8_unit_conversions`. -/
theorem c8_unit_conversions_witness :
    vTessieOnline.in_service = false ∧
      process_vehicle distNone [] vTessieOnline none
          (Except.ok sdActive) (Except.ok vdEngaged)
        = (Except.ok (mk_measurement (resolve_location distNone sdActive [])
              (csEngaged.charger_power * 1000)
              (csEngaged.charge_energy_added * 1000 * 3600)
              (sdActive.odometer * 1609.344) 1 vTessieOnline),
            [ApiCall.streaming, ApiCall.vehicleData]) :=
  ⟨rfl,
    c8_unit_conversions distNone [] vTessieOnline none sdActive vdEngaged csEngaged
      rfl (by decide) (by decide) (by decide) rfl rfl⟩

/-- C10: when the REST fetch runs in the awake branch, an engaged charge
port latch emits the converted REST values; a present charge state with any
other latch value zeroes both the energy counter and the power gauge (the
prior counter is not carried forward); an absent charge state carries the
prior energy counter forward with a 0 power gauge. -/
theorem c10_rest_charge_state_branch (dist : ℚ × ℚ → ℚ × ℚ → Option ℚ)
    (geofences : List GeofenceConfig) (vehicle : TeslaVehicle)
    (last_measurements : Option (List Measurement))
    (sd : TeslaVehicleStreamingData) (vd : TeslaVehicleData)
    (hs : vehicle.in_service = false)
    (ha : vehicle.state ≠ TeslaVehicleState.Asleep)
    (ho : vehicle.state ≠ TeslaVehicleState.Offline)
    (hguard : sd.power > 0 ∨ sd.speed > 0
      ∨ sd.odometer * 1609.344 - (get_last_values last_measurements vehicle).odometer > 0
      ∨ (get_last_values last_measurements vehicle).charger_power > 0) :
    (∀ cs : TeslaVehicleChargeState, vd.charge_state = some cs →
        cs.charge_port_latch = "Engaged" →
        process_vehicle dist geofences vehicle last_measurements
            (Except.ok sd) (Except.ok vd)
          = (Except.ok (mk_measurement (resolve_location dist sd geofences)
                (cs.charger_power * 1000) (cs.charge_energy_added * 1000 * 3600)
                (sd.odometer * 1609.344) 1 vehicle),
              [ApiCall.streaming, ApiCall.vehicleData]))
      ∧ (∀ cs : TeslaVehicleChargeState, vd.charge_state = some cs →
          cs.charge_port_latch ≠ "Engaged" →
          process_vehicle dist geofences vehicle last_measurements
              (Except.ok sd) (Except.ok vd)
            = (Except.ok (mk_measurement (resolve_location dist sd geofences)
                  0 0 (sd.odometer * 1609.344) 1 vehicle),
                [ApiCall.streaming, ApiCall.vehicleData]))
      ∧ (vd.charge_state = none →
          process_vehicle dist geofences vehicle last_measurements
              (Except.ok sd) (Except.ok vd)
            = (Except.ok (mk_measurement (resolve_location dist sd geofences)
                  0 (get_last_values last_measurements vehicle).charge_energy_added
                  (sd.odometer * 1609.344) 1 vehicle),
                [ApiCall.streaming, ApiCall.vehicleData])) := by
  have h : ¬ (vehicle.in_service
      ∨ vehicle.state = TeslaVehicleState.Asleep
      ∨ vehicle.state = TeslaVehicleState.Offline) := by
    simp [hs, ha, ho]
  have hg : sd.power > 0 ∨ sd.speed > 0
      ∨ sd.odometer * 1609.344 > (get_last_values last_measurements vehicle).odometer
      ∨ (get_last_values last_measurements vehicle).charger_power > 0 :=
    (or_congr Iff.rfl (or_congr Iff.rfl (or_congr sub_pos Iff.rfl))).mp hguard
  refine ⟨?_, ?_, ?_⟩
  · intro cs hcs hlatch
    simp [process_vehicle, reconcile_values, if_neg h, hg, hcs, hlatch]
  · intro cs hcs hlatch
    simp [process_vehicle, reconcile_values, if_neg h, hg, hcs, hlatch]
  · intro hcs
    simp [process_vehicle, reconcile_values, if_neg h, hg, hcs]

/-- A concrete disengaged charge state. -/
def csDisengaged : TeslaVehicleChargeState :=
  { charge_energy_added := 7, charger_power := 9, charge_port_latch := "Disengaged" }

/-- A concrete REST body carrying `csDisengaged`. -/
def vdDisengaged : TeslaVehicleData :=
  { id := 1, vehicle_id := 42, state := TeslaVehicleState.Online,
    in_service := false, charge_state := some csDisengaged }

/-- A prior measurement with a 5000 energy counter for "Tessie". -/
def mPrior : Measurement := mk_measurement "Home" 0 5000 100 1 vTessieOnline

/-- Closed instance of `c10_rest_charge_state_branch`: a disengaged latch
zeroes the energy counter even though the prior counter was 5000, so the
counter decreases. -/
theorem c10_rest_charge_state_branch_witness :
    (get_last_values (some [mPrior]) vTessieOnline).charge_energy_added = 5000 ∧
      process_vehicle distNone [] vTessieOnline (some [mPrior])
          (Except.ok sdActive) (Except.ok vdDisengaged)
        = (Except.ok (mk_measurement (resolve_location distNone sdActive [])
              0 0 (sdActive.odometer * 1609.344) 1 vTessieOnline),
            [ApiCall.streaming, ApiCall.vehicleData]) :=
  ⟨by decide,
    (c10_rest_charge_state_branch distNone [] vTessieOnline (some [mPrior])
        sdActive vdDisengaged rfl (by decide) (by decide) (by decide)).2.1
      csDisengaged rfl (by decide)⟩

/-- A concrete REST body whose charge state reports a negative charger_power
of -1 kW with the latch engaged. -/
def csNegative : TeslaVehicleChargeState :=
  { charge_energy_added := 0, charger_power := -1, charge_port_latch := "Engaged" }

/-- The REST body carrying `csNegative`. -/
def vdNegative : TeslaVehicleData :=
  { id := 1, vehicle_id := 42, state := TeslaVehicleState.Online,
    in_service := false, charge_state := some csNegative }

/-- C9, counterexample: with a REST response reporting a negative
charger_power (-1 kW) and an engaged latch, the produced measurement's
ElectricityConsumption gauge (the first pushed sample) is -1000 < 0: the REST
power is multiplied by 1000 without absolute-value normalization, so the
claim fails for this combination of state, streamed values and REST
response. -/
theorem c9_counterexample :
    (process_vehicle distNone [] vTessieOnline none (Except.ok sdActive)
        (Except.ok vdNegative)).1
      = Except.ok (mk_measurement "Other" (-1000) 0 0 1 vTessieOnline)
    ∧ (mk_measurement "Other" (-1000) 0 0 1 vTessieOnline).samples.map Sample.value
      = [-1000, 0, 0, 1]
    ∧ ((-1000 : ℚ) < 0) := by
  refine ⟨?_, by decide, by norm_num⟩
  norm_num [process_vehicle, reconcile_values, vTessieOnline, sdActive, vdNegative,
    csNegative, get_last_values, displayNameOf, resolve_location, in_geofence,
    distNone, mk_measurement]
  rw [if_neg (by decide : ¬ (TeslaVehicleState.Online = TeslaVehicleState.Asleep
    ∨ TeslaVehicleState.Online = TeslaVehicleState.Offline))]

/-- The charger-power component reconciled for a vehicle is nonnegative as
soon as any charge state the REST call can deliver reports a nonnegative
charger_power. -/
lemma reconcile_charger_power_nonneg (dist : ℚ × ℚ → ℚ × ℚ → Option ℚ)
    (geofences : List GeofenceConfig) (vehicle : TeslaVehicle)
    (last_measurements : Option (List Measurement))
    (streamResult : Except String TeslaVehicleStreamingData)
    (vehicleDataResult : Except String TeslaVehicleData)
    (hcp : ∀ vd : TeslaVehicleData, ∀ cs : TeslaVehicleChargeState,
      vehicleDataResult = Except.ok vd → vd.charge_state = some cs →
        0 ≤ cs.charger_power) :
    ∀ t : String × ℚ × ℚ × ℚ × ℚ,
      (reconcile_values dist geofences vehicle last_measurements
          streamResult vehicleDataResult).1 = Except.ok t →
        0 ≤ t.2.1 := by
  intro t h
  by_cases hcond : vehicle.in_service
      ∨ vehicle.state = TeslaVehicleState.Asleep
      ∨ vehicle.state = TeslaVehicleState.Offline
  · simp only [reconcile_values, if_pos hcond] at h
    injection h with h
    subst h
    exact le_refl 0
  · cases streamResult with
    | error e =>
      simp only [reconcile_values, if_neg hcond] at h
      injection h with h
      subst h
      exact le_refl 0
    | ok sd =>
      by_cases hguard : sd.power > 0 ∨ sd.speed > 0
          ∨ sd.odometer * 1609.344
              - (get_last_values last_measurements vehicle).odometer > 0
          ∨ (get_last_values last_measurements vehicle).charger_power > 0
      · cases vehicleDataResult with
        | error e =>
          simp only [reconcile_values, if_neg hcond, if_pos hguard] at h
          exact absurd h (by simp)
        | ok vd =>
          cases hcs : vd.charge_state with
          | none =>
            simp only [reconcile_values, if_neg hcond, if_pos hguard, hcs] at h
            injection h with h
            subst h
            exact le_refl 0
          | some cs =>
            by_cases hlatch : cs.charge_port_latch = "Engaged"
            · simp only [reconcile_values, if_neg hcond, if_pos hguard, hcs,
                if_pos hlatch] at h
              injection h with h
              subst h
              have hcs0 : 0 ≤ cs.charger_power := hcp vd cs rfl hcs
              have : (0 : ℚ) ≤ cs.charger_power * 1000 :=
                mul_nonneg hcs0 (by norm_num)
              simpa using this
            · simp only [reconcile_values, if_neg hcond, if_pos hguard, hcs,
                if_neg hlatch] at h
              injection h with h
              subst h
              exact le_refl 0
      · simp only [reconcile_values, if_neg hcond, if_neg hguard] at h
        injection h with h
        subst h
        exact le_refl 0

/-- C9, amended: in every measurement the engine produces, the
ElectricityConsumption Gauge (power) sample is ≥ 0, for every vehicle state,
streamed sample and REST outcome — provided any charge state delivered by the
REST call reports a nonnegative charger_power (the code multiplies that REST
value by 1000 without absolute-value normalization, so a negative REST value
is the one exception, see the counterexample). -/
theorem c9_power_gauge_nonneg (dist : ℚ × ℚ → ℚ × ℚ → Option ℚ)
    (geofences : List GeofenceConfig) (vehicle : TeslaVehicle)
    (last_measurements : Option (List Measurement))
    (streamResult : Except String TeslaVehicleStreamingData)
    (vehicleDataResult : Except String TeslaVehicleData)
    (hcp : ∀ vd : TeslaVehicleData, ∀ cs : TeslaVehicleChargeState,
      vehicleDataResult = Except.ok vd → vd.charge_state = some cs →
        0 ≤ cs.charger_power) :
    ∀ m : Measurement,
      (process_vehicle dist geofences vehicle last_measurements
          streamResult vehicleDataResult).1 = Except.ok m →
      ∀ s ∈ m.samples, s.sample_type = SampleType.ElectricityConsumption →
        s.metric_type = MetricType.Gauge → 0 ≤ s.value := by
  intro m hm s hsmem hst hmt
  rcases hr : reconcile_values dist geofences vehicle last_measurements
      streamResult vehicleDataResult with ⟨res, calls⟩
  cases res with
  | error e =>
    rw [process_vehicle, hr] at hm
    exact absurd hm (by simp)
  | ok t =>
    obtain ⟨loc, cp, cea, od, av⟩ := t
    have hcp0 : 0 ≤ cp :=
      reconcile_charger_power_nonneg dist geofences vehicle last_measurements
        streamResult vehicleDataResult hcp (loc, cp, cea, od, av)
        (by rw [hr])
    rw [process_vehicle, hr] at hm
    simp only [Except.ok.injEq] at hm
    subst hm
    simp only [mk_measurement, List.mem_cons, List.mem_singleton] at hsmem
    rcases hsmem with h1 | h2 | h3 | h4 | hfalse
    · subst h1
      exact hcp0
    · subst h2
      simp at hmt
    · subst h3
      simp at hmt
    · subst h4
      simp at hst
    · exact absurd hfalse (List.not_mem_nil s)

/-- The zero-valued power gauge sample for "Tessie". -/
def sGaugeTessie0 : Sample :=
  { entity_type := EntityType.Device, entity_name := "jarvis-tesla-exporter",
    sample_type := SampleType.ElectricityConsumption, sample_name := "Tessie",
    metric_type := MetricType.Gauge, value := 0 }

/-- Closed instance of `c9_power_gauge_nonneg` on an asleep vehicle whose
REST outcome is an error (so the nonnegativity side condition holds
vacuously): the power gauge sample value 0 is nonnegative. -/
theorem c9_power_gauge_nonneg_witness :
    0 ≤ sGaugeTessie0.value :=
  c9_power_gauge_nonneg distNone [] vTessieAsleep none (Except.error "probe failed")
    (Except.error "unused")
    (fun vd cs h => absurd h (fun hh => Except.noConfusion hh))
    (mk_measurement "Other" 0 0 0 0 vTessieAsleep) rfl
    sGaugeTessie0 (by decide) rfl rfl
